import Mathlib

/-!
Shallow embedding of the stumpless target subsystem.

The data model (target struct, target type enumeration, option bits,
constants) is embedded from `src/include/stumpless/target.h`.  The bodies
of the public operations are not part of the repository excerpt (only the
header declarations and a configuration test are), so they are modelled
from the specification, as noted in each doc comment.  Machine integers
(`int` fields and return values) are modelled as `Nat`/`Int`, with the
32-bit width of a C `int` made explicit where bit complement matters.
-/

/-- Embedding of `enum stumpless_target_type` from
`src/include/stumpless/target.h` (same constructor order). -/
inductive stumpless_target_type where
  | buffer
  | file
  | function
  | journald
  | network
  | socket
  | stream
  | windows_event_log
  deriving DecidableEq, Repr

/-- Modelled from the spec: the error taxonomy of §7 (the constructors used
by the claims; the full taxonomy has further kinds).  The implementation's
error identifiers are not in the repository excerpt. -/
inductive stumpless_error_id where
  | argument_empty
  | argument_too_big
  | invalid_encoding
  | invalid_facility
  | invalid_argument
  | target_unsupported
  | target_paused
  | target_closed
  deriving DecidableEq, Repr

/-- Modelled from the spec: the per-target lifecycle state of §3
(paused / open / closed-in-progress).  The state is kept in the
configuration-specific tail of the target struct, which the public header
does not expose. -/
inductive target_lifecycle where
  | paused
  | opened
  | closing
  deriving DecidableEq, Repr

/-- Embedding of `struct stumpless_target` from
`src/include/stumpless/target.h`.  Pointer-valued string fields that may be
unset (`default_app_name`, `default_msgid`) are `Option String`; the
`state` field is the lifecycle state of §3, which in the C struct lives in
the hidden configuration-specific tail. -/
structure stumpless_target where
  id : Nat
  type : stumpless_target_type
  name : String
  name_length : Nat
  options : Nat
  default_prival : Nat
  default_app_name : Option String
  default_app_name_length : Nat
  default_msgid : Option String
  default_msgid_length : Nat
  mask : Nat
  state : target_lifecycle
  deriving DecidableEq, Repr

/-- `STUMPLESS_DEFAULT_FILE` from `src/include/stumpless/target.h`. -/
def STUMPLESS_DEFAULT_FILE : String := "stumpless-default.log"

/-- `STUMPLESS_DEFAULT_TARGET_NAME` from `src/include/stumpless/target.h`. -/
def STUMPLESS_DEFAULT_TARGET_NAME : String := "stumpless-default"

/-- Option bit layout from spec §6: `PID=0x01`. -/
def STUMPLESS_OPTION_PID : Nat := 1

/-- Option bit layout from spec §6: `CONS=0x02`. -/
def STUMPLESS_OPTION_CONS : Nat := 2

/-- Option bit layout from spec §6: `NDELAY=0x08`. -/
def STUMPLESS_OPTION_NDELAY : Nat := 8

/-- Option bit layout from spec §6: `PERROR=0x20`. -/
def STUMPLESS_OPTION_PERROR : Nat := 32

/-- The bitwise or of all recognized option bits (spec §6: other bits are
reserved). -/
def STUMPLESS_ALL_OPTIONS : Nat :=
  STUMPLESS_OPTION_PID ||| STUMPLESS_OPTION_CONS |||
  STUMPLESS_OPTION_NDELAY ||| STUMPLESS_OPTION_PERROR

/-- Facility values follow the syslog convention (spec §6): USER = 1. -/
def STUMPLESS_FACILITY_USER : Nat := 1

/-- Severity values follow the syslog convention (spec §6): INFO = 6. -/
def STUMPLESS_SEVERITY_INFO : Nat := 6

/-- The width of a C `int` in bits; target option masks are C `int`s. -/
def INT_BITS : Nat := 32

/-- All bits of a C `int` set, as an unsigned value. -/
def INT_MASK : Nat := 2 ^ INT_BITS - 1

/-- Modelled from the spec: §4.1, priority encoded as
`facility*8 + severity`.  The codec implementation is not in the
repository excerpt. -/
def stumpless_prival (facility severity : Nat) : Nat :=
  facility * 8 + severity

/-- Modelled from the spec: §4.1, the unpack direction of the priority
codec, facility component. -/
def stumpless_get_facility (prival : Nat) : Nat :=
  prival / 8

/-- Modelled from the spec: §4.1, the unpack direction of the priority
codec, severity component. -/
def stumpless_get_severity (prival : Nat) : Nat :=
  prival % 8

/-- Modelled from the spec: a structured-data parameter (§3); the entry
implementation is not in the repository excerpt. -/
structure stumpless_param where
  name : String
  value : String
  deriving DecidableEq, Repr

/-- Modelled from the spec: a structured-data element (§3). -/
structure stumpless_element where
  name : String
  params : List stumpless_param
  deriving DecidableEq, Repr

/-- Modelled from the spec: a log entry (§3).  Fields an entry may lack
(priority, app name, msgid, message) are `Option`s; the serializer
substitutes target defaults or the nil value for them. -/
structure stumpless_entry where
  prival : Option Nat
  app_name : Option String
  msgid : Option String
  message : Option String
  elements : List stumpless_element
  deriving DecidableEq, Repr

/-- The RFC 5424 nil value. -/
def nil_value : String := "-"

/-- Modelled from the spec: §4.2, the PRI part: the computed priority in
decimal, bracketed. -/
def serialize_pri (prival : Nat) : String :=
  "<" ++ Nat.repr prival ++ ">"

/-- Modelled from the spec: §4.2, the priority used for an entry: the
entry's, falling back to the target's default prival. -/
def effective_prival (e : stumpless_entry) (t : stumpless_target) : Nat :=
  match e.prival with
  | some p => p
  | none => t.default_prival

/-- Modelled from the spec: §4.2, APP-NAME comes from the entry, falling
back to the target's default, falling back to `-`. -/
def effective_app_name (e : stumpless_entry) (t : stumpless_target) : String :=
  match e.app_name with
  | some a => a
  | none =>
    match t.default_app_name with
    | some d => d
    | none => nil_value

/-- Modelled from the spec: §4.2, MSGID comes from the entry, falling back
to the target's default, falling back to `-`. -/
def effective_msgid (e : stumpless_entry) (t : stumpless_target) : String :=
  match e.msgid with
  | some m => m
  | none =>
    match t.default_msgid with
    | some d => d
    | none => nil_value

/-- Modelled from the spec: §4.2 escaping, each of `"`, `\`, `]` in a
PARAM-VALUE is prefixed with `\`. -/
def escape_param_value (s : String) : String :=
  String.mk (s.data.foldr
    (fun c acc => if c = '"' ∨ c = '\\' ∨ c = ']' then '\\' :: c :: acc else c :: acc)
    [])

/-- Modelled from the spec: §4.2, one ` NAME="VALUE"` group. -/
def serialize_param (p : stumpless_param) : String :=
  " " ++ p.name ++ "=\"" ++ escape_param_value p.value ++ "\""

/-- Modelled from the spec: §4.2, one `[ID( SP NAME="VALUE")*]` group. -/
def serialize_element (el : stumpless_element) : String :=
  "[" ++ el.name ++ String.join (el.params.map serialize_param) ++ "]"

/-- Modelled from the spec: §4.2, STRUCTURED-DATA is the concatenation of
the element groups in insertion order, or the single literal `-` when
there are no elements. -/
def serialize_structured_data (els : List stumpless_element) : String :=
  match els with
  | [] => nil_value
  | _ => String.join (els.map serialize_element)

/-- Modelled from the spec: §4.3, the PROCID field is populated exactly
when the `PID` option is set on the target, and is the nil value
otherwise. -/
def serialize_procid (t : stumpless_target) (procid : Nat) : String :=
  if t.options &&& STUMPLESS_OPTION_PID ≠ 0 then Nat.repr procid else nil_value

/-- The UTF-8 byte order mark, as a character. -/
def bom : String := "\uFEFF"

/-- Modelled from the spec: §4.2, MSG, if present and non-empty, is
preceded by a single space and a BOM; empty or absent messages omit both
the separator and the BOM. -/
def serialize_message (e : stumpless_entry) : String :=
  match e.message with
  | none => ""
  | some m => if m = "" then "" else " " ++ bom ++ m

/-- Modelled from the spec: §4.2, the RFC 5424 rendering
`<PRI>VERSION SP TIMESTAMP SP HOSTNAME SP APP-NAME SP PROCID SP MSGID SP
STRUCTURED-DATA [SP MSG]` with `VERSION = 1`.  The wall clock, hostname
and process id are environment inputs and are passed in explicitly. -/
def serialize_5424 (e : stumpless_entry) (t : stumpless_target)
    (timestamp hostname : String) (procid : Nat) : String :=
  serialize_pri (effective_prival e t) ++
    ("1 " ++
      (timestamp ++
        (" " ++
          (hostname ++
            (" " ++
              (effective_app_name e t ++
                (" " ++
                  (serialize_procid t procid ++
                    (" " ++
                      (effective_msgid e t ++
                        (" " ++
                          (serialize_structured_data e.elements ++
                            serialize_message e))))))))))))

/-- Modelled from the spec: the build-time feature configuration that the
target subsystem is compiled against (§3 default target, §4.5 drivers).
The socket path is build-time determined (§6). -/
structure build_config where
  windows_event_log_supported : Bool
  socket_supported : Bool
  journald_supported : Bool
  network_supported : Bool
  default_socket_path : String
  deriving DecidableEq, Repr

/-- Modelled from the spec: §4.5, whether the driver for a target type is
compiled into the build; buffer, file, stream and function targets are
always available. -/
def type_supported (cfg : build_config) : stumpless_target_type → Bool
  | .journald => cfg.journald_supported
  | .windows_event_log => cfg.windows_event_log_supported
  | .socket => cfg.socket_supported
  | .network => cfg.network_supported
  | _ => true

/-- Modelled from the spec: §4.4 step 2, the drivers that consume the
entry directly rather than a serialized line. -/
def target_is_structured : stumpless_target_type → Bool
  | .journald => true
  | .windows_event_log => true
  | .function => true
  | _ => false

/-- Modelled from the spec: §3, the default target type priority order:
Windows Event Log if compiled with support, else Unix socket if compiled
with support, else a file target. -/
def default_target_type (cfg : build_config) : stumpless_target_type :=
  if cfg.windows_event_log_supported then .windows_event_log
  else if cfg.socket_supported then .socket
  else .file

/-- Modelled from the spec: §3, the name of the default target for each of
the three possible default types. -/
def default_target_name (cfg : build_config) : String :=
  if cfg.windows_event_log_supported then STUMPLESS_DEFAULT_TARGET_NAME
  else if cfg.socket_supported then cfg.default_socket_path
  else STUMPLESS_DEFAULT_FILE

/-- The identifier reserved for the process-wide default target; user
target identifiers are unique and distinct from it (§3: identifiers are
unique within the process). -/
def default_target_id : Nat := 0

/-- Modelled from the spec: §3, the lazily created default target: no
options set, default facility USER (with severity INFO, giving the prival
14 of scenarios 1 and 2), type and name per the build configuration. -/
def make_default_target (cfg : build_config) : stumpless_target :=
  { id := default_target_id
    type := default_target_type cfg
    name := default_target_name cfg
    name_length := (default_target_name cfg).length
    options := 0
    default_prival := stumpless_prival STUMPLESS_FACILITY_USER STUMPLESS_SEVERITY_INFO
    default_app_name := none
    default_app_name_length := 0
    default_msgid := none
    default_msgid_length := 0
    mask := 0
    state := target_lifecycle.opened }

/-- Modelled from the spec: a record handed to a transport driver
(§4.4): text drivers receive the serialized line, structured drivers
receive the entry itself. -/
inductive wire_record where
  | text (line : String)
  | structured (e : stumpless_entry)
  deriving DecidableEq, Repr

/-- Modelled from the spec: the process-wide state of the library (§5):
the live targets, the current-target pointer (an identifier, `none` when
unset so that reads fall back to the default), the lazily created default
target, the per-thread error channel (one thread modelled), and the
sequence of records handed to drivers. -/
structure lib_state where
  targets : List stumpless_target
  current_target : Option Nat
  default_target : Option stumpless_target
  last_error : Option stumpless_error_id
  wire : List wire_record
  deriving DecidableEq, Repr

/-- Modelled from the spec: §7, a failing call records its error kind into
the calling thread's error channel. -/
def set_error (st : lib_state) (e : stumpless_error_id) : lib_state :=
  { st with last_error := some e }

/-- Dereference a target pointer: the live target with the given
identifier, if any. -/
def find_target (st : lib_state) (tid : Nat) : Option stumpless_target :=
  st.targets.find? (fun t => t.id == tid)

/-- Mutate the pointed-to target in place. -/
def update_target (st : lib_state) (tid : Nat)
    (f : stumpless_target → stumpless_target) : lib_state :=
  { st with targets := st.targets.map (fun t => if t.id = tid then f t else t) }

/-- Modelled from the spec: a system environment snapshot (wall clock,
hostname, process id) consumed by the serializer during dispatch. -/
structure sys_env where
  timestamp : String
  hostname : String
  procid : Nat
  deriving DecidableEq, Repr

/-- Modelled from the spec: `stumpless_get_default_target` (declared in
`src/include/stumpless/target.h`, implementation not in the excerpt).
The default target is created on first use and cached; a successful call
does not write the error channel. -/
def stumpless_get_default_target (cfg : build_config) (st : lib_state) :
    lib_state × Option stumpless_target :=
  match st.default_target with
  | some d => (st, some d)
  | none =>
    let d := make_default_target cfg
    ({ st with default_target := some d }, some d)

/-- Modelled from the spec: `stumpless_get_current_target` (declared in
`src/include/stumpless/target.h`).  Reads the current-target pointer and
falls back to the default target when no suitable current target exists
(the header documents that a closed current target is replaced by the
default). -/
def stumpless_get_current_target (cfg : build_config) (st : lib_state) :
    lib_state × Option stumpless_target :=
  match st.current_target with
  | some tid =>
    match find_target st tid with
    | some t => (st, some t)
    | none => stumpless_get_default_target cfg st
  | none => stumpless_get_default_target cfg st

/-- Modelled from the spec: `stumpless_set_current_target` (declared in
`src/include/stumpless/target.h`): a single store of the pointer. -/
def stumpless_set_current_target (st : lib_state) (target : Option Nat) :
    lib_state :=
  { st with current_target := target }

/-- Modelled from the spec: `stumpless_close_target` (declared in
`src/include/stumpless/target.h`).  For a supported target type the
target is destroyed and, if it was referenced by the current-target
pointer, that pointer is reset so that reads revert to the default (§3);
for a type not compiled into the build the call reports
`TARGET_UNSUPPORTED` instead of silently succeeding (§4.5, and the test
`JournaldTargetTest.GenericClose`). -/
def stumpless_close_target (cfg : build_config) (st : lib_state)
    (t : stumpless_target) : lib_state :=
  if type_supported cfg t.type then
    { st with
      targets := st.targets.filter (fun u => u.id != t.id)
      current_target :=
        if st.current_target = some t.id then none else st.current_target }
  else
    set_error st stumpless_error_id.target_unsupported

/-- Modelled from the spec: `stumpless_open_target` (declared in
`src/include/stumpless/target.h`).  Transitions paused→open and makes the
target the current target (§3: the current target is the most recently
opened target); on success the returned pointer is the argument pointer.
A dangling identifier cannot arise through the API and is mapped to an
empty-argument failure here. -/
def stumpless_open_target (cfg : build_config) (st : lib_state)
    (target : Option Nat) : lib_state × Option Nat :=
  match target with
  | none => (set_error st stumpless_error_id.argument_empty, none)
  | some tid =>
    match find_target st tid with
    | none => (set_error st stumpless_error_id.argument_empty, none)
    | some t =>
      if type_supported cfg t.type then
        ({ update_target st tid (fun u => { u with state := target_lifecycle.opened }) with
            current_target := some tid }, some tid)
      else
        (set_error st stumpless_error_id.target_unsupported, none)

/-- Modelled from the spec: §4.3, a requested option value is recognized
when it only carries recognized bits. -/
def option_recognized (option : Nat) : Bool :=
  option &&& STUMPLESS_ALL_OPTIONS == option

/-- Modelled from the spec: `stumpless_set_option` (declared in
`src/include/stumpless/target.h`): ors the bit into the option mask under
the target lock and returns the target, or fails with `INVALID_ARGUMENT`
on unrecognized bits (§4.3). -/
def stumpless_set_option (st : lib_state) (target : Option Nat)
    (option : Nat) : lib_state × Option Nat :=
  match target with
  | none => (set_error st stumpless_error_id.argument_empty, none)
  | some tid =>
    match find_target st tid with
    | none => (set_error st stumpless_error_id.argument_empty, none)
    | some _ =>
      if option_recognized option then
        (update_target st tid (fun u => { u with options := u.options ||| option }),
          some tid)
      else
        (set_error st stumpless_error_id.invalid_argument, none)

/-- Modelled from the spec: `stumpless_unset_option` (declared in
`src/include/stumpless/target.h`): clears the bit (`options &= ~option`
on a 32-bit `int`, rendered as a mask subtraction on `Nat`) and returns
the target, or fails with `INVALID_ARGUMENT` on unrecognized bits. -/
def stumpless_unset_option (st : lib_state) (target : Option Nat)
    (option : Nat) : lib_state × Option Nat :=
  match target with
  | none => (set_error st stumpless_error_id.argument_empty, none)
  | some tid =>
    match find_target st tid with
    | none => (set_error st stumpless_error_id.argument_empty, none)
    | some _ =>
      if option_recognized option then
        (update_target st tid
            (fun u => { u with options := u.options &&& (INT_MASK - option) }),
          some tid)
      else
        (set_error st stumpless_error_id.invalid_argument, none)

/-- Modelled from the spec: `stumpless_get_option` (declared in
`src/include/stumpless/target.h`): returns the masked bit value if set,
zero if the option is not set, and zero with the error channel written
when an error is encountered (a nil target). -/
def stumpless_get_option (st : lib_state) (target : Option Nat)
    (option : Nat) : lib_state × Nat :=
  match target with
  | none => (set_error st stumpless_error_id.argument_empty, 0)
  | some tid =>
    match find_target st tid with
    | none => (set_error st stumpless_error_id.argument_empty, 0)
    | some t => (st, t.options &&& option)

/-- Modelled from the spec: `stumpless_set_default_facility` (declared in
`src/include/stumpless/target.h`): replaces the facility component of the
target's default prival, keeping the severity component; an out-of-range
facility fails with `INVALID_FACILITY` (§7). -/
def stumpless_set_default_facility (st : lib_state) (target : Option Nat)
    (facility : Nat) : lib_state × Option Nat :=
  match target with
  | none => (set_error st stumpless_error_id.argument_empty, none)
  | some tid =>
    match find_target st tid with
    | none => (set_error st stumpless_error_id.argument_empty, none)
    | some _ =>
      if facility ≤ 23 then
        (update_target st tid
            (fun u =>
              { u with default_prival :=
                  stumpless_prival facility (stumpless_get_severity u.default_prival) }),
          some tid)
      else
        (set_error st stumpless_error_id.invalid_facility, none)

/-- Modelled from the spec: `stumpless_get_default_facility` (declared in
`src/include/stumpless/target.h`): the facility component of the default
prival, or -1 with the error channel written on error. -/
def stumpless_get_default_facility (st : lib_state) (target : Option Nat) :
    lib_state × Int :=
  match target with
  | none => (set_error st stumpless_error_id.argument_empty, -1)
  | some tid =>
    match find_target st tid with
    | none => (set_error st stumpless_error_id.argument_empty, -1)
    | some t => (st, (stumpless_get_facility t.default_prival : Int))

/-- Modelled from the spec: §3, a valid app name is 1-48 printable ASCII
characters. -/
def app_name_valid (s : String) : Bool :=
  s.data.all (fun c => 33 ≤ c.toNat && c.toNat ≤ 126)

/-- Modelled from the spec: §3, a valid msgid is 1-32 characters in the
printable range 33-126 (also documented in the header). -/
def msgid_valid (s : String) : Bool :=
  s.data.all (fun c => 33 ≤ c.toNat && c.toNat ≤ 126)

/-- Modelled from the spec: `stumpless_set_target_default_app_name`
(declared in `src/include/stumpless/target.h`): validates length (at most
48) and charset, copies the argument into the target, and returns the
target. -/
def stumpless_set_target_default_app_name (st : lib_state)
    (target : Option Nat) (app_name : String) : lib_state × Option Nat :=
  match target with
  | none => (set_error st stumpless_error_id.argument_empty, none)
  | some tid =>
    match find_target st tid with
    | none => (set_error st stumpless_error_id.argument_empty, none)
    | some _ =>
      if app_name.length > 48 then
        (set_error st stumpless_error_id.argument_too_big, none)
      else if app_name_valid app_name then
        (update_target st tid
            (fun u =>
              { u with
                default_app_name := some app_name
                default_app_name_length := app_name.length }),
          some tid)
      else
        (set_error st stumpless_error_id.invalid_encoding, none)

/-- Modelled from the spec: `stumpless_set_target_default_msgid` (declared
in `src/include/stumpless/target.h`): validates length (at most 32) and
charset, copies the argument into the target, and returns the target. -/
def stumpless_set_target_default_msgid (st : lib_state)
    (target : Option Nat) (msgid : String) : lib_state × Option Nat :=
  match target with
  | none => (set_error st stumpless_error_id.argument_empty, none)
  | some tid =>
    match find_target st tid with
    | none => (set_error st stumpless_error_id.argument_empty, none)
    | some _ =>
      if msgid.length > 32 then
        (set_error st stumpless_error_id.argument_too_big, none)
      else if msgid_valid msgid then
        (update_target st tid
            (fun u =>
              { u with
                default_msgid := some msgid
                default_msgid_length := msgid.length }),
          some tid)
      else
        (set_error st stumpless_error_id.invalid_encoding, none)

/-- Modelled from the spec: `stumpless_add_entry` (declared in
`src/include/stumpless/target.h`), the dispatch gateway of §4.4, together
with the unsupported-driver stubs of §4.5: nil arguments fail with an
empty-argument error; a target whose type is not compiled into the build
fails with `TARGET_UNSUPPORTED` regardless of its other fields (the test
`JournaldTargetTest.Unsupported` exercises a target with an indeterminate
lifecycle state); a target that is not open fails with `TARGET_PAUSED`
before anything is serialized or written; otherwise structured drivers
receive the entry itself and text drivers receive the serialized line,
whose length in bytes is the return value.  The severity mask filter of
step 3 is reserved and not active (§9).  The target argument is the
pointee itself, as dispatch never moves the target. -/
def stumpless_add_entry (cfg : build_config) (sys : sys_env) (st : lib_state)
    (target : Option stumpless_target) (entry : Option stumpless_entry) :
    lib_state × Int :=
  match target with
  | none => (set_error st stumpless_error_id.argument_empty, -1)
  | some t =>
    match entry with
    | none => (set_error st stumpless_error_id.argument_empty, -1)
    | some e =>
      if type_supported cfg t.type then
        if t.state = target_lifecycle.opened then
          if target_is_structured t.type then
            ({ st with wire := st.wire ++ [wire_record.structured e] }, 0)
          else
            let line := serialize_5424 e t sys.timestamp sys.hostname sys.procid
            ({ st with wire := st.wire ++ [wire_record.text line] },
              (line.length : Int))
        else
          (set_error st stumpless_error_id.target_paused, -1)
      else
        (set_error st stumpless_error_id.target_unsupported, -1)

/-- The per-target observation that claim C8 is about: the identifier and
type tag of every live target. -/
def targets_type_view (st : lib_state) : List (Nat × stumpless_target_type) :=
  st.targets.map (fun t => (t.id, t.type))

/-- A build configuration in which neither Windows Event Log, socket, nor
journald targets are compiled in (the shape exercised by
`src/test/function/config/journald_unsupported.cpp`). -/
def cfg_minimal : build_config :=
  { windows_event_log_supported := false
    socket_supported := false
    journald_supported := false
    network_supported := true
    default_socket_path := "/dev/log" }

/-- A concrete system environment snapshot. -/
def ex_env : sys_env :=
  { timestamp := "2026-10-11T00:00:00.000000Z"
    hostname := "examplehost"
    procid := 123 }

/-- A concrete open buffer target with a default app name. -/
def ex_buffer_target : stumpless_target :=
  { id := 1
    type := stumpless_target_type.buffer
    name := "buffer target"
    name_length := 13
    options := 0
    default_prival := 14
    default_app_name := some "myapp"
    default_app_name_length := 5
    default_msgid := none
    default_msgid_length := 0
    mask := 0
    state := target_lifecycle.opened }

/-- A concrete buffer target that has not been opened yet. -/
def ex_paused_buffer_target : stumpless_target :=
  { ex_buffer_target with id := 3, state := target_lifecycle.paused }

/-- A concrete open file target. -/
def ex_file_target : stumpless_target :=
  { id := 2
    type := stumpless_target_type.file
    name := "log.txt"
    name_length := 7
    options := 0
    default_prival := 14
    default_app_name := none
    default_app_name_length := 0
    default_msgid := none
    default_msgid_length := 0
    mask := 0
    state := target_lifecycle.opened }

/-- A concrete journald-type target, as fabricated by the tests in
`src/test/function/config/journald_unsupported.cpp` (its lifecycle state
is indeterminate there; here it is paused). -/
def ex_journald_target : stumpless_target :=
  { id := 5
    type := stumpless_target_type.journald
    name := "journald target"
    name_length := 15
    options := 0
    default_prival := 14
    default_app_name := none
    default_app_name_length := 0
    default_msgid := none
    default_msgid_length := 0
    mask := 0
    state := target_lifecycle.paused }

/-- A concrete entry carrying a priority and message but no app name or
msgid of its own. -/
def ex_entry : stumpless_entry :=
  { prival := some 14
    app_name := none
    msgid := none
    message := some "hello"
    elements := [] }

/-- A concrete library state holding the example buffer target, with the
current target unset and the default target not yet created. -/
def ex_state : lib_state :=
  { targets := [ex_buffer_target]
    current_target := none
    default_target := none
    last_error := none
    wire := [] }

/-- A concrete library state in which the example buffer target is the
current target. -/
def ex_state_buffer_current : lib_state :=
  { targets := [ex_buffer_target]
    current_target := some 1
    default_target := none
    last_error := none
    wire := [] }

/-- A concrete library state in which the example file target is the
current target. -/
def ex_state_file_current : lib_state :=
  { targets := [ex_file_target]
    current_target := some 2
    default_target := none
    last_error := none
    wire := [] }

/-- A concrete library state holding the example journald-type target as
a live object. -/
def ex_state_journald : lib_state :=
  { targets := [ex_journald_target]
    current_target := none
    default_target := none
    last_error := none
    wire := [] }

theorem find?_map_update (l : List stumpless_target) (tid : Nat)
    (f : stumpless_target → stumpless_target) (hid : ∀ u, (f u).id = u.id) :
    (l.map (fun t => if t.id = tid then f t else t)).find? (fun t => t.id == tid)
      = (l.find? (fun t => t.id == tid)).map f := by
  induction l with
  | nil => rfl
  | cons a l ih =>
    cases hb : (a.id == tid) with
    | true =>
      have hp : a.id = tid := by simpa using hb
      simp [List.find?_cons, hp, hid, -List.find?_map]
    | false =>
      have hp : ¬ a.id = tid := by simpa using hb
      simp [List.find?_cons, hp, ih, -List.find?_map]

theorem find_target_update (st : lib_state) (tid : Nat)
    (f : stumpless_target → stumpless_target) (hid : ∀ u, (f u).id = u.id) :
    find_target (update_target st tid f) tid = (find_target st tid).map f :=
  find?_map_update st.targets tid f hid

theorem targets_type_view_set_error (st : lib_state) (e : stumpless_error_id) :
    targets_type_view (set_error st e) = targets_type_view st := rfl

theorem targets_type_view_update (st : lib_state) (tid : Nat)
    (f : stumpless_target → stumpless_target)
    (hid : ∀ u, (f u).id = u.id) (hty : ∀ u, (f u).type = u.type) :
    targets_type_view (update_target st tid f) = targets_type_view st := by
  show (st.targets.map (fun t => if t.id = tid then f t else t)).map
      (fun t => (t.id, t.type)) = st.targets.map (fun t => (t.id, t.type))
  rw [List.map_map]
  apply List.map_congr_left
  intro u _
  by_cases h : u.id = tid <;> simp [h, hid, hty]

theorem lor_land_self (o b : Nat) : (o ||| b) &&& b = b := by
  apply Nat.eq_of_testBit_eq
  intro i
  simp only [Nat.testBit_and, Nat.testBit_or]
  cases o.testBit i <;> cases b.testBit i <;> rfl

theorem mask_compl_testBit (b : Nat) (hb : b < 2 ^ INT_BITS) (i : Nat) :
    (INT_MASK - b).testBit i = (decide (i < INT_BITS) && !(b.testBit i)) := by
  have h : INT_MASK - b = 2 ^ INT_BITS - (b + 1) := by
    have : INT_MASK = 2 ^ INT_BITS - 1 := rfl
    omega
  rw [h, Nat.testBit_two_pow_sub_succ hb]

theorem land_mask_compl_self (o b : Nat) (hb : b < 2 ^ INT_BITS) :
    (o &&& (INT_MASK - b)) &&& b = 0 := by
  apply Nat.eq_of_testBit_eq
  intro i
  simp only [Nat.testBit_and, Nat.zero_testBit, mask_compl_testBit b hb i]
  cases b.testBit i <;> simp

theorem lor_testBit_of_not (o b i : Nat) (h : b.testBit i = false) :
    (o ||| b).testBit i = o.testBit i := by
  simp [Nat.testBit_or, h]

theorem land_mask_compl_testBit_of_not (o b i : Nat) (hb : b < 2 ^ INT_BITS)
    (ho : o < 2 ^ INT_BITS) (h : b.testBit i = false) :
    (o &&& (INT_MASK - b)).testBit i = o.testBit i := by
  rw [Nat.testBit_and, mask_compl_testBit b hb i, h]
  by_cases hi : i < INT_BITS
  · simp [hi]
  · have hpow : 2 ^ INT_BITS ≤ 2 ^ i :=
      Nat.pow_le_pow_right (by norm_num) (le_of_not_lt hi)
    have : o.testBit i = false := Nat.testBit_lt_two_pow (lt_of_lt_of_le ho hpow)
    simp [hi, this]

theorem option_recognized_lt (b : Nat) (h : option_recognized b = true) :
    b < 2 ^ INT_BITS := by
  have hb : b &&& STUMPLESS_ALL_OPTIONS = b := by
    simpa [option_recognized] using h
  have hle : b &&& STUMPLESS_ALL_OPTIONS ≤ STUMPLESS_ALL_OPTIONS := Nat.and_le_right
  have h43 : STUMPLESS_ALL_OPTIONS = 43 := by decide
  have hbits : (2 : Nat) ^ INT_BITS = 4294967296 := by decide
  omega

/-- C4: for every entry and target, the serialized RFC 5424 APP-NAME
field (the `effective_app_name` component of `serialize_5424`) is the
entry's app name when the entry provides one, else the target's default
app name when the target has one, else the nil value `-`; the MSGID field
(`effective_msgid`) follows the same fallback chain. -/
theorem C4_app_name_msgid_fallback (e : stumpless_entry) (t : stumpless_target) :
    (∀ a, e.app_name = some a → effective_app_name e t = a) ∧
    (e.app_name = none → ∀ d, t.default_app_name = some d →
      effective_app_name e t = d) ∧
    (e.app_name = none → t.default_app_name = none →
      effective_app_name e t = nil_value) ∧
    (∀ m, e.msgid = some m → effective_msgid e t = m) ∧
    (e.msgid = none → ∀ d, t.default_msgid = some d →
      effective_msgid e t = d) ∧
    (e.msgid = none → t.default_msgid = none →
      effective_msgid e t = nil_value) := by
  refine ⟨?_, ?_, ?_, ?_, ?_, ?_⟩ <;> intros <;>
    simp_all [effective_app_name, effective_msgid]

/-- Witness for C4: the example entry has no app name of its own and the
example buffer target's default app name `myapp` is substituted. -/
theorem C4_witness :
    ex_entry.app_name = none ∧
    ex_buffer_target.default_app_name = some "myapp" ∧
    effective_app_name ex_entry ex_buffer_target = "myapp" :=
  ⟨rfl, rfl,
    (C4_app_name_msgid_fallback ex_entry ex_buffer_target).2.1 rfl "myapp" rfl⟩

/-- C6: for every facility in 0-23 and severity in 0-7 the packed
priority is `facility*8 + severity`, lies in 0-191, and is inverted by
the unpack directions of the codec; facility USER with severity INFO
packs to 14, and any record whose effective priority is 14 is serialized
with the PRI part `<14>` (followed by the version `1` and a space). -/
theorem C6_priority_codec (f s : Nat) (hf : f ≤ 23) (hs : s ≤ 7) :
    stumpless_prival f s = f * 8 + s ∧
    stumpless_prival f s ≤ 191 ∧
    stumpless_get_facility (stumpless_prival f s) = f ∧
    stumpless_get_severity (stumpless_prival f s) = s ∧
    stumpless_prival STUMPLESS_FACILITY_USER STUMPLESS_SEVERITY_INFO = 14 ∧
    (∀ e t ts hn pid, effective_prival e t = 14 →
      ∃ rest, serialize_5424 e t ts hn pid = "<14>" ++ ("1 " ++ rest)) := by
  refine ⟨rfl, ?_, ?_, ?_, rfl, ?_⟩
  · unfold stumpless_prival
    omega
  · unfold stumpless_get_facility stumpless_prival
    omega
  · unfold stumpless_get_severity stumpless_prival
    omega
  · intro e t ts hn pid h
    have h14 : serialize_pri 14 = "<14>" := by decide
    refine ⟨ts ++ (" " ++ (hn ++ (" " ++ (effective_app_name e t ++ (" " ++
      (serialize_procid t pid ++ (" " ++ (effective_msgid e t ++ (" " ++
        (serialize_structured_data e.elements ++ serialize_message e)))))))))), ?_⟩
    unfold serialize_5424
    rw [h, h14]

/-- Witness for C6: facility USER(1) and severity INFO(6) are in range,
pack to prival 14 which unpacks back to facility 1, and the example entry
(whose priority is 14) serializes with the `<14>` PRI part. -/
theorem C6_witness :
    (1 ≤ 23 ∧ 6 ≤ 7) ∧
    stumpless_prival 1 6 = 14 ∧
    stumpless_get_facility (stumpless_prival 1 6) = 1 ∧
    (∃ rest, serialize_5424 ex_entry ex_buffer_target "ts" "host" 123
      = "<14>" ++ ("1 " ++ rest)) :=
  ⟨by decide,
    (C6_priority_codec 1 6 (by decide) (by decide)).2.2.2.2.1,
    (C6_priority_codec 1 6 (by decide) (by decide)).2.2.1,
    (C6_priority_codec 1 6 (by decide) (by decide)).2.2.2.2.2
      ex_entry ex_buffer_target "ts" "host" 123 (by decide)⟩

/-- C10: `stumpless_get_option` returns zero both for a live target on
which the queried option is not set (leaving the error channel untouched)
and for a nil target (writing an empty-argument error to the error
channel): the two cases agree on the return value and differ only in the
error channel. -/
theorem C10_get_option_zero (st : lib_state) (tid b : Nat)
    (t : stumpless_target) (hfind : find_target st tid = some t)
    (hunset : t.options &&& b = 0) :
    (stumpless_get_option st (some tid) b).2 = 0 ∧
    (stumpless_get_option st (some tid) b).1.last_error = st.last_error ∧
    (stumpless_get_option st none b).2 = 0 ∧
    (stumpless_get_option st none b).1.last_error
      = some stumpless_error_id.argument_empty := by
  refine ⟨?_, ?_, rfl, rfl⟩ <;> simp [stumpless_get_option, hfind, hunset]

/-- Witness for C10: the example buffer target has no options set, so
querying the CONS bit returns 0 without an error, exactly as a nil-target
query returns 0 with the error channel written. -/
theorem C10_witness :
    find_target ex_state 1 = some ex_buffer_target ∧
    ex_buffer_target.options &&& 2 = 0 ∧
    (stumpless_get_option ex_state (some 1) 2).2 = 0 ∧
    (stumpless_get_option ex_state none 2).1.last_error
      = some stumpless_error_id.argument_empty :=
  ⟨by decide, by decide,
    (C10_get_option_zero ex_state 1 2 ex_buffer_target (by decide) (by decide)).1,
    (C10_get_option_zero ex_state 1 2 ex_buffer_target (by decide) (by decide)).2.2.2⟩

/-- C5: for a live target and a recognized option bit, setting the option
makes `stumpless_get_option` return exactly the bit value (the masked
bit), unsetting it makes `stumpless_get_option` return 0, and both
mutators leave every bit outside of the requested value unchanged. -/
theorem C5_option_set_unset (st : lib_state) (tid b : Nat)
    (t : stumpless_target) (hfind : find_target st tid = some t)
    (hrec : option_recognized b = true)
    (hopt : t.options < 2 ^ INT_BITS) :
    (stumpless_set_option st (some tid) b).2 = some tid ∧
    (stumpless_get_option (stumpless_set_option st (some tid) b).1
      (some tid) b).2 = b ∧
    (stumpless_unset_option st (some tid) b).2 = some tid ∧
    (stumpless_get_option (stumpless_unset_option st (some tid) b).1
      (some tid) b).2 = 0 ∧
    (∀ t1, find_target (stumpless_set_option st (some tid) b).1 tid = some t1 →
      ∀ i, b.testBit i = false → t1.options.testBit i = t.options.testBit i) ∧
    (∀ t2, find_target (stumpless_unset_option st (some tid) b).1 tid = some t2 →
      ∀ i, b.testBit i = false → t2.options.testBit i = t.options.testBit i) := by
  have hb : b < 2 ^ INT_BITS := option_recognized_lt b hrec
  have hset : stumpless_set_option st (some tid) b
      = (update_target st tid (fun u => { u with options := u.options ||| b }),
          some tid) := by
    simp [stumpless_set_option, hfind, hrec]
  have hunset : stumpless_unset_option st (some tid) b
      = (update_target st tid
            (fun u => { u with options := u.options &&& (INT_MASK - b) }),
          some tid) := by
    simp [stumpless_unset_option, hfind, hrec]
  have hfind_set : find_target
      (update_target st tid (fun u => { u with options := u.options ||| b })) tid
      = some { t with options := t.options ||| b } := by
    rw [find_target_update st tid
        (fun u => { u with options := u.options ||| b }) (fun u => rfl), hfind]
    rfl
  have hfind_unset : find_target
      (update_target st tid
        (fun u => { u with options := u.options &&& (INT_MASK - b) })) tid
      = some { t with options := t.options &&& (INT_MASK - b) } := by
    rw [find_target_update st tid
        (fun u => { u with options := u.options &&& (INT_MASK - b) })
        (fun u => rfl), hfind]
    rfl
  refine ⟨by rw [hset], ?_, by rw [hunset], ?_, ?_, ?_⟩
  · rw [hset]
    simp [stumpless_get_option, hfind_set, lor_land_self]
  · rw [hunset]
    simp [stumpless_get_option, hfind_unset, land_mask_compl_self t.options b hb]
  · intro t1 h1 i hi
    rw [hset] at h1
    rw [hfind_set] at h1
    cases h1
    exact lor_testBit_of_not t.options b i hi
  · intro t2 h2 i hi
    rw [hunset] at h2
    rw [hfind_unset] at h2
    cases h2
    exact land_mask_compl_testBit_of_not t.options b i hb hopt hi

/-- Witness for C5: setting the PERROR bit on the example buffer target
makes the read return 32, and unsetting it makes the read return 0. -/
theorem C5_witness :
    find_target ex_state 1 = some ex_buffer_target ∧
    option_recognized 32 = true ∧
    ex_buffer_target.options < 2 ^ INT_BITS ∧
    (stumpless_get_option (stumpless_set_option ex_state (some 1) 32).1
      (some 1) 32).2 = 32 ∧
    (stumpless_get_option (stumpless_unset_option ex_state (some 1) 32).1
      (some 1) 32).2 = 0 :=
  ⟨by decide, by decide, by decide,
    (C5_option_set_unset ex_state 1 32 ex_buffer_target (by decide) (by decide)
      (by decide)).2.1,
    (C5_option_set_unset ex_state 1 32 ex_buffer_target (by decide) (by decide)
      (by decide)).2.2.2.1⟩

/-- Counterexample to C1 as stated: on a build without journald support,
not every operation on a journald-type target reports target-unsupported:
`stumpless_set_option` on the live example journald target succeeds (it
returns the argument pointer and leaves the error channel untouched), and
`stumpless_get_option` also completes without writing the error channel;
the option and default accessors are type-generic (spec §4.3 and the
header give them no type dispatch) and only the type-dispatching
operations consult the build's driver set. -/
theorem C1_counterexample :
    cfg_minimal.journald_supported = false ∧
    ex_journald_target.type = stumpless_target_type.journald ∧
    find_target ex_state_journald 5 = some ex_journald_target ∧
    (stumpless_set_option ex_state_journald (some 5) 1).2 = some 5 ∧
    (stumpless_set_option ex_state_journald (some 5) 1).1.last_error = none ∧
    (stumpless_get_option ex_state_journald (some 5) 1).1.last_error = none := by
  refine ⟨by decide, by decide, by decide, by decide, by decide, by decide⟩

/-- C1 (amended): on a build without journald support, the operations
that dispatch on the target's type report the target-unsupported error
for a journald-type target: `stumpless_add_entry` returns a negative
value with the error channel set to `TARGET_UNSUPPORTED`,
`stumpless_open_target` returns nil with `TARGET_UNSUPPORTED`, and
`stumpless_close_target` also records `TARGET_UNSUPPORTED` rather than
silently succeeding (and frees nothing); the type-generic option and
default accessors perform no type check and succeed. -/
theorem C1_unsupported_target_ops (cfg : build_config) (sys : sys_env)
    (st : lib_state) (t : stumpless_target) (e : stumpless_entry) (tid : Nat)
    (hcfg : cfg.journald_supported = false)
    (ht : t.type = stumpless_target_type.journald)
    (hfind : find_target st tid = some t) :
    (stumpless_add_entry cfg sys st (some t) (some e)).2 < 0 ∧
    (stumpless_add_entry cfg sys st (some t) (some e)).1.last_error
      = some stumpless_error_id.target_unsupported ∧
    (stumpless_open_target cfg st (some tid)).2 = none ∧
    (stumpless_open_target cfg st (some tid)).1.last_error
      = some stumpless_error_id.target_unsupported ∧
    (stumpless_close_target cfg st t).last_error
      = some stumpless_error_id.target_unsupported ∧
    (stumpless_close_target cfg st t).targets = st.targets := by
  have hsup : type_supported cfg t.type = false := by
    rw [ht]
    simp [type_supported, hcfg]
  refine ⟨?_, ?_, ?_, ?_, ?_, ?_⟩ <;>
    simp [stumpless_add_entry, stumpless_open_target, stumpless_close_target,
      hfind, hsup, set_error]

/-- Witness for C1: the example journald target, live in the example
state, on the journald-less build configuration: `add_entry` fails with a
negative return, and `open_target` and `close_target` both record
`TARGET_UNSUPPORTED`. -/
theorem C1_witness :
    cfg_minimal.journald_supported = false ∧
    ex_journald_target.type = stumpless_target_type.journald ∧
    find_target ex_state_journald 5 = some ex_journald_target ∧
    (stumpless_add_entry cfg_minimal ex_env ex_state_journald
      (some ex_journald_target) (some ex_entry)).2 < 0 ∧
    (stumpless_open_target cfg_minimal ex_state_journald (some 5)).1.last_error
      = some stumpless_error_id.target_unsupported ∧
    (stumpless_close_target cfg_minimal ex_state_journald
      ex_journald_target).last_error
      = some stumpless_error_id.target_unsupported :=
  ⟨rfl, rfl, by decide,
    (C1_unsupported_target_ops cfg_minimal ex_env ex_state_journald
      ex_journald_target ex_entry 5 rfl rfl (by decide)).1,
    (C1_unsupported_target_ops cfg_minimal ex_env ex_state_journald
      ex_journald_target ex_entry 5 rfl rfl (by decide)).2.2.2.1,
    (C1_unsupported_target_ops cfg_minimal ex_env ex_state_journald
      ex_journald_target ex_entry 5 rfl rfl (by decide)).2.2.2.2.1⟩

/-- Counterexample to C2 as stated: a journald-type target whose
lifecycle state is not open, on a build without journald support, makes
`stumpless_add_entry` fail with `TARGET_UNSUPPORTED`, not
`TARGET_PAUSED` (the unsupported-driver check of §4.5, exercised by
`JournaldTargetTest.Unsupported` on a target with indeterminate state,
dominates the state check). -/
theorem C2_counterexample :
    ex_journald_target.state ≠ target_lifecycle.opened ∧
    (stumpless_add_entry cfg_minimal ex_env ex_state (some ex_journald_target)
      (some ex_entry)).2 < 0 ∧
    (stumpless_add_entry cfg_minimal ex_env ex_state (some ex_journald_target)
      (some ex_entry)).1.last_error ≠ some stumpless_error_id.target_paused ∧
    (stumpless_add_entry cfg_minimal ex_env ex_state (some ex_journald_target)
      (some ex_entry)).1.last_error
      = some stumpless_error_id.target_unsupported := by
  refine ⟨by decide, by decide, by decide, by decide⟩

/-- C2 (amended): for every non-nil target whose type is compiled into
the build and every non-nil entry, if the target's lifecycle state is not
open then `stumpless_add_entry` fails with a negative return and the
error channel set to `TARGET_PAUSED`, with nothing serialized or handed
to a driver; if the target is open the return value is non-negative, and
for text drivers it is the length of the serialized record, which is
handed to the driver. -/
theorem C2_add_entry_contract (cfg : build_config) (sys : sys_env)
    (st : lib_state) (t : stumpless_target) (e : stumpless_entry)
    (hsupp : type_supported cfg t.type = true) :
    (t.state ≠ target_lifecycle.opened →
      (stumpless_add_entry cfg sys st (some t) (some e)).2 = -1 ∧
      (stumpless_add_entry cfg sys st (some t) (some e)).1.last_error
        = some stumpless_error_id.target_paused ∧
      (stumpless_add_entry cfg sys st (some t) (some e)).1.wire = st.wire) ∧
    (t.state = target_lifecycle.opened →
      0 ≤ (stumpless_add_entry cfg sys st (some t) (some e)).2 ∧
      (target_is_structured t.type = false →
        (stumpless_add_entry cfg sys st (some t) (some e)).2
          = ((serialize_5424 e t sys.timestamp sys.hostname sys.procid).length : Int) ∧
        (stumpless_add_entry cfg sys st (some t) (some e)).1.wire
          = st.wire ++ [wire_record.text
              (serialize_5424 e t sys.timestamp sys.hostname sys.procid)])) := by
  constructor
  · intro hstate
    refine ⟨?_, ?_, ?_⟩ <;> simp [stumpless_add_entry, hsupp, hstate, set_error]
  · intro hstate
    by_cases hstr : target_is_structured t.type = true
    · constructor
      · simp [stumpless_add_entry, hsupp, hstate, hstr]
      · intro hcontra
        rw [hstr] at hcontra
        exact absurd hcontra (by decide)
    · have hstr' : target_is_structured t.type = false := by
        simpa using hstr
      constructor
      · simp [stumpless_add_entry, hsupp, hstate, hstr']
      · intro _
        constructor <;> simp [stumpless_add_entry, hsupp, hstate, hstr']

/-- Witness for C2: a paused buffer target (a supported type) makes
`stumpless_add_entry` fail with `TARGET_PAUSED`, and the open example
buffer target accepts the entry with a non-negative byte count. -/
theorem C2_witness :
    type_supported cfg_minimal ex_paused_buffer_target.type = true ∧
    ex_paused_buffer_target.state ≠ target_lifecycle.opened ∧
    (stumpless_add_entry cfg_minimal ex_env ex_state
      (some ex_paused_buffer_target) (some ex_entry)).1.last_error
      = some stumpless_error_id.target_paused ∧
    ex_buffer_target.state = target_lifecycle.opened ∧
    0 ≤ (stumpless_add_entry cfg_minimal ex_env ex_state
      (some ex_buffer_target) (some ex_entry)).2 :=
  ⟨by decide, by decide,
    ((C2_add_entry_contract cfg_minimal ex_env ex_state ex_paused_buffer_target
      ex_entry (by decide)).1 (by decide)).2.1,
    by decide,
    ((C2_add_entry_contract cfg_minimal ex_env ex_state ex_buffer_target
      ex_entry (by decide)).2 (by decide)).1⟩

theorem default_target_type_ne_buffer (cfg : build_config) :
    default_target_type cfg ≠ stumpless_target_type.buffer := by
  unfold default_target_type
  by_cases h1 : cfg.windows_event_log_supported <;>
    by_cases h2 : cfg.socket_supported <;> simp [h1, h2]

theorem default_target_type_ne_journald (cfg : build_config) :
    default_target_type cfg ≠ stumpless_target_type.journald := by
  unfold default_target_type
  by_cases h1 : cfg.windows_event_log_supported <;>
    by_cases h2 : cfg.socket_supported <;> simp [h1, h2]

/-- Counterexample to C3 as stated: on a build whose default target is a
file target, closing a file target that is the current target makes
`stumpless_get_current_target` return the default target, whose type
equals the closed target's type (both are file targets), contradicting
the claim's parenthetical that the returned target's type differs from
the closed one's. -/
theorem C3_counterexample :
    ex_state_file_current.current_target = some ex_file_target.id ∧
    (stumpless_get_current_target cfg_minimal
      (stumpless_close_target cfg_minimal ex_state_file_current ex_file_target)).2
      = some (make_default_target cfg_minimal) ∧
    (make_default_target cfg_minimal).type = ex_file_target.type := by
  refine ⟨by decide, by decide, by decide⟩

/-- C3 (amended): for every target that is the value of the current-target
pointer, after `stumpless_close_target` the current-target read returns
the default target: non-nil, never the closed target itself (its
identifier differs), and never a buffer target - so its type differs from
the closed target's whenever the closed target is a buffer target (the
spec's scenario), though the types may coincide for other closed types
(e.g. a file target on a file-default build). -/
theorem C3_close_current_reverts (cfg : build_config) (st : lib_state)
    (t : stumpless_target)
    (hcur : st.current_target = some t.id)
    (hsupp : type_supported cfg t.type = true)
    (hid : t.id ≠ default_target_id)
    (hdef : ∀ d, st.default_target = some d → d = make_default_target cfg) :
    (stumpless_get_current_target cfg
      (stumpless_close_target cfg st t)).2 = some (make_default_target cfg) ∧
    (make_default_target cfg).id ≠ t.id ∧
    (make_default_target cfg).type ≠ stumpless_target_type.buffer ∧
    (t.type = stumpless_target_type.buffer →
      (make_default_target cfg).type ≠ t.type) := by
  refine ⟨?_, fun h => hid h.symm, default_target_type_ne_buffer cfg, ?_⟩
  · rcases hd : st.default_target with _ | d
    · simp [stumpless_get_current_target, stumpless_close_target, hsupp, hcur,
        stumpless_get_default_target, hd]
    · simp [stumpless_get_current_target, stumpless_close_target, hsupp, hcur,
        stumpless_get_default_target, hd, hdef d hd]
  · intro hb
    rw [hb]
    exact default_target_type_ne_buffer cfg

/-- Witness for C3: closing the example buffer target while it is the
current target makes the current-target read return the (file-typed)
default target of the minimal build configuration. -/
theorem C3_witness :
    ex_state_buffer_current.current_target = some ex_buffer_target.id ∧
    type_supported cfg_minimal ex_buffer_target.type = true ∧
    (stumpless_get_current_target cfg_minimal
      (stumpless_close_target cfg_minimal ex_state_buffer_current
        ex_buffer_target)).2 = some (make_default_target cfg_minimal) ∧
    (make_default_target cfg_minimal).type ≠ ex_buffer_target.type :=
  ⟨by decide, by decide,
    (C3_close_current_reverts cfg_minimal ex_state_buffer_current
      ex_buffer_target (by decide) (by decide) (by decide)
      (fun d h => Option.noConfusion h)).1,
    (C3_close_current_reverts cfg_minimal ex_state_buffer_current
      ex_buffer_target (by decide) (by decide) (by decide)
      (fun d h => Option.noConfusion h)).2.2.2 rfl⟩

/-- C7: the default target is created lazily by the first call to
`stumpless_get_default_target`, which returns it non-nil without writing
the error channel; it has no options set, default facility USER, its type
follows the build-time priority order (Windows Event Log, then Unix
socket, then file), and it is never a journald target. -/
theorem C7_default_target (cfg : build_config) (st : lib_state)
    (hdef : ∀ d, st.default_target = some d → d = make_default_target cfg) :
    (stumpless_get_default_target cfg st).2 = some (make_default_target cfg) ∧
    (stumpless_get_default_target cfg st).1.last_error = st.last_error ∧
    (st.default_target = none →
      (stumpless_get_default_target cfg st).1.default_target
        = some (make_default_target cfg)) ∧
    (make_default_target cfg).options = 0 ∧
    stumpless_get_facility (make_default_target cfg).default_prival
      = STUMPLESS_FACILITY_USER ∧
    (make_default_target cfg).type = default_target_type cfg ∧
    (make_default_target cfg).type ≠ stumpless_target_type.journald ∧
    (cfg.windows_event_log_supported = true →
      default_target_type cfg = stumpless_target_type.windows_event_log) ∧
    (cfg.windows_event_log_supported = false → cfg.socket_supported = true →
      default_target_type cfg = stumpless_target_type.socket) ∧
    (cfg.windows_event_log_supported = false → cfg.socket_supported = false →
      default_target_type cfg = stumpless_target_type.file) := by
  have hfac : stumpless_get_facility (make_default_target cfg).default_prival
      = STUMPLESS_FACILITY_USER := by
    show stumpless_get_facility
        (stumpless_prival STUMPLESS_FACILITY_USER STUMPLESS_SEVERITY_INFO)
      = STUMPLESS_FACILITY_USER
    decide
  refine ⟨?_, ?_, ?_, rfl, hfac, rfl, default_target_type_ne_journald cfg,
    ?_, ?_, ?_⟩
  · rcases hd : st.default_target with _ | d
    · simp [stumpless_get_default_target, hd]
    · simp [stumpless_get_default_target, hd, hdef d hd]
  · rcases hd : st.default_target with _ | d <;>
      simp [stumpless_get_default_target, hd]
  · intro hd
    simp [stumpless_get_default_target, hd]
  · intro h1
    simp [default_target_type, h1]
  · intro h1 h2
    simp [default_target_type, h1, h2]
  · intro h1 h2
    simp [default_target_type, h1, h2]

/-- Witness for C7: on the minimal build configuration, starting from a
state with no default target yet, the default target is created, is
non-nil, and is a file target. -/
theorem C7_witness :
    ex_state.default_target = none ∧
    (stumpless_get_default_target cfg_minimal ex_state).2
      = some (make_default_target cfg_minimal) ∧
    (make_default_target cfg_minimal).type = stumpless_target_type.file :=
  ⟨rfl,
    (C7_default_target cfg_minimal ex_state
      (fun _ h => Option.noConfusion h)).1,
    (C7_default_target cfg_minimal ex_state
      (fun _ h => Option.noConfusion h)).2.2.2.2.2.2.2.2.2 rfl rfl⟩

/-- C8: no operation changes the type tag of any live target: the
identifier-and-type view of the target heap is invariant under
`set_option`, `unset_option`, `set_default_facility`,
`set_target_default_app_name`, `set_target_default_msgid`, `open_target`
and `add_entry`, matching the header's guarantee that the type of a
target never changes over its lifetime. -/
theorem C8_type_constant (cfg : build_config) (sys : sys_env)
    (st : lib_state) (target : Option Nat) (tp : Option stumpless_target)
    (ep : Option stumpless_entry) (b fac : Nat) (s1 s2 : String) :
    targets_type_view (stumpless_set_option st target b).1
      = targets_type_view st ∧
    targets_type_view (stumpless_unset_option st target b).1
      = targets_type_view st ∧
    targets_type_view (stumpless_set_default_facility st target fac).1
      = targets_type_view st ∧
    targets_type_view (stumpless_set_target_default_app_name st target s1).1
      = targets_type_view st ∧
    targets_type_view (stumpless_set_target_default_msgid st target s2).1
      = targets_type_view st ∧
    targets_type_view (stumpless_open_target cfg st target).1
      = targets_type_view st ∧
    targets_type_view (stumpless_add_entry cfg sys st tp ep).1
      = targets_type_view st := by
  refine ⟨?_, ?_, ?_, ?_, ?_, ?_, ?_⟩
  · cases target with
    | none => rfl
    | some tid =>
      cases hf : find_target st tid with
      | none => simp [stumpless_set_option, hf, targets_type_view_set_error]
      | some u =>
        by_cases hrec : option_recognized b
        · simp only [stumpless_set_option, hf, hrec, if_true]
          exact targets_type_view_update st tid _ (fun v => rfl) (fun v => rfl)
        · simp [stumpless_set_option, hf, hrec, targets_type_view_set_error]
  · cases target with
    | none => rfl
    | some tid =>
      cases hf : find_target st tid with
      | none => simp [stumpless_unset_option, hf, targets_type_view_set_error]
      | some u =>
        by_cases hrec : option_recognized b
        · simp only [stumpless_unset_option, hf, hrec, if_true]
          exact targets_type_view_update st tid _ (fun v => rfl) (fun v => rfl)
        · simp [stumpless_unset_option, hf, hrec, targets_type_view_set_error]
  · cases target with
    | none => rfl
    | some tid =>
      cases hf : find_target st tid with
      | none =>
        simp [stumpless_set_default_facility, hf, targets_type_view_set_error]
      | some u =>
        by_cases hfac : fac ≤ 23
        · simp only [stumpless_set_default_facility, hf, hfac, if_true]
          exact targets_type_view_update st tid _ (fun v => rfl) (fun v => rfl)
        · simp [stumpless_set_default_facility, hf, hfac,
            targets_type_view_set_error]
  · cases target with
    | none => rfl
    | some tid =>
      cases hf : find_target st tid with
      | none =>
        simp [stumpless_set_target_default_app_name, hf,
          targets_type_view_set_error]
      | some u =>
        by_cases hlen : s1.length > 48
        · simp [stumpless_set_target_default_app_name, hf, hlen,
            targets_type_view_set_error]
        · by_cases hval : app_name_valid s1
          · simp only [stumpless_set_target_default_app_name, hf, hlen, hval,
              if_true, if_false]
            exact targets_type_view_update st tid _ (fun v => rfl) (fun v => rfl)
          · simp [stumpless_set_target_default_app_name, hf, hlen, hval,
              targets_type_view_set_error]
  · cases target with
    | none => rfl
    | some tid =>
      cases hf : find_target st tid with
      | none =>
        simp [stumpless_set_target_default_msgid, hf,
          targets_type_view_set_error]
      | some u =>
        by_cases hlen : s2.length > 32
        · simp [stumpless_set_target_default_msgid, hf, hlen,
            targets_type_view_set_error]
        · by_cases hval : msgid_valid s2
          · simp only [stumpless_set_target_default_msgid, hf, hlen, hval,
              if_true, if_false]
            exact targets_type_view_update st tid _ (fun v => rfl) (fun v => rfl)
          · simp [stumpless_set_target_default_msgid, hf, hlen, hval,
              targets_type_view_set_error]
  · cases target with
    | none => rfl
    | some tid =>
      cases hf : find_target st tid with
      | none => simp [stumpless_open_target, hf, targets_type_view_set_error]
      | some u =>
        by_cases hsup : type_supported cfg u.type
        · simp only [stumpless_open_target, hf, hsup, if_true]
          exact targets_type_view_update st tid _ (fun v => rfl) (fun v => rfl)
        · simp [stumpless_open_target, hf, hsup, targets_type_view_set_error]
  · cases tp with
    | none => rfl
    | some t =>
      cases ep with
      | none => rfl
      | some e =>
        by_cases h1 : type_supported cfg t.type
        · by_cases h2 : t.state = target_lifecycle.opened
          · by_cases h3 : target_is_structured t.type
            · simp [stumpless_add_entry, h1, h2, h3, targets_type_view]
            · simp [stumpless_add_entry, h1, h2, h3, targets_type_view]
          · simp [stumpless_add_entry, h1, h2, targets_type_view, set_error]
        · simp [stumpless_add_entry, h1, targets_type_view, set_error]

/-- C9: whenever one of the target-returning operations `open_target`,
`set_option`, `unset_option`, `set_default_facility`,
`set_target_default_app_name` or `set_target_default_msgid` succeeds, the
pointer it returns is exactly the pointer it was given, not a copy. -/
theorem C9_returned_pointer (cfg : build_config) (st : lib_state)
    (target : Option Nat) (b fac : Nat) (s1 s2 : String) :
    ((stumpless_open_target cfg st target).2 ≠ none →
      (stumpless_open_target cfg st target).2 = target) ∧
    ((stumpless_set_option st target b).2 ≠ none →
      (stumpless_set_option st target b).2 = target) ∧
    ((stumpless_unset_option st target b).2 ≠ none →
      (stumpless_unset_option st target b).2 = target) ∧
    ((stumpless_set_default_facility st target fac).2 ≠ none →
      (stumpless_set_default_facility st target fac).2 = target) ∧
    ((stumpless_set_target_default_app_name st target s1).2 ≠ none →
      (stumpless_set_target_default_app_name st target s1).2 = target) ∧
    ((stumpless_set_target_default_msgid st target s2).2 ≠ none →
      (stumpless_set_target_default_msgid st target s2).2 = target) := by
  refine ⟨?_, ?_, ?_, ?_, ?_, ?_⟩ <;>
    (cases target with
     | none => intro h; exact absurd rfl h
     | some tid =>
       cases hf : find_target st tid with
       | none =>
         intro h
         first
         | exact absurd (by simp [stumpless_open_target, hf]) h
         | exact absurd (by simp [stumpless_set_option, hf]) h
         | exact absurd (by simp [stumpless_unset_option, hf]) h
         | exact absurd (by simp [stumpless_set_default_facility, hf]) h
         | exact absurd (by simp [stumpless_set_target_default_app_name, hf]) h
         | exact absurd (by simp [stumpless_set_target_default_msgid, hf]) h
       | some u =>
         intro h
         first
         | (by_cases hc : type_supported cfg u.type
            · simp [stumpless_open_target, hf, hc]
            · exact absurd (by simp [stumpless_open_target, hf, hc]) h)
         | (by_cases hc : option_recognized b
            · first
              | simp [stumpless_set_option, hf, hc]
              | simp [stumpless_unset_option, hf, hc]
            · first
              | exact absurd (by simp [stumpless_set_option, hf, hc]) h
              | exact absurd (by simp [stumpless_unset_option, hf, hc]) h)
         | (by_cases hc : fac ≤ 23
            · simp [stumpless_set_default_facility, hf, hc]
            · exact absurd (by simp [stumpless_set_default_facility, hf, hc]) h)
         | (by_cases hl : s1.length > 48
            · exact absurd
                (by simp [stumpless_set_target_default_app_name, hf, hl]) h
            · by_cases hv : app_name_valid s1
              · simp [stumpless_set_target_default_app_name, hf, hl, hv]
              · exact absurd
                  (by simp [stumpless_set_target_default_app_name, hf, hl, hv])
                  h)
         | (by_cases hl : s2.length > 32
            · exact absurd
                (by simp [stumpless_set_target_default_msgid, hf, hl]) h
            · by_cases hv : msgid_valid s2
              · simp [stumpless_set_target_default_msgid, hf, hl, hv]
              · exact absurd
                  (by simp [stumpless_set_target_default_msgid, hf, hl, hv])
                  h))

/-- Witness for C9: opening the example buffer target through its pointer
returns that same pointer. -/
theorem C9_witness :
    (stumpless_open_target cfg_minimal ex_state (some 1)).2 ≠ none ∧
    (stumpless_open_target cfg_minimal ex_state (some 1)).2 = some 1 :=
  ⟨by decide,
    (C9_returned_pointer cfg_minimal ex_state (some 1) 0 0 "" "").1 (by decide)⟩
